import Mathlib

/-!
# Verification of the `nimiqrpc` JSON-RPC client library

A shallow embedding of the Python client library for the Nimiq JSON-RPC
server, together with proofs of its specified properties.

Source files embedded:
* `nimiqrpc/util.py` — unit conversion (`satoshi_to_coin`, `coin_to_satoshi`,
  `ensure_satoshi`) and the polling `block_listener` generator;
* `nimiqrpc/jsonrpc.py` — the JSON-RPC transport (`JsonRpcClient.call`,
  correlation ids, error discrimination);
* `nimiqrpc/api.py` — the domain client (`send_transaction`,
  `get_transaction_by_hash`, hex encoding of binary payloads);
* `nimiqrpc/albatross.py` — the staking extension (`AlbatrossApi.stake`).

Modelling conventions:
* Python `int` is `ℤ` (arbitrary precision), `decimal.Decimal` is `ℚ` with
  exact arithmetic, `bytes` is `List (Fin 256)`.
* JSON values are the inductive `JValue`; JSON numbers appearing in the
  envelope (correlation ids, amounts) are integers.
* Python's `dict.get(key)` returns `None` both for an absent key and for a
  key bound to JSON `null`, so envelope fields read via `.get` are modelled
  as `Option JValue` with `none` standing for absent-or-null.
* Exceptions are modelled with `Except`; network effects are modelled by
  passing the (already HTTP-successful, JSON-parsed) response envelope as an
  explicit argument, and by returning the request that was sent.
-/

namespace Nimiq

/-- JSON values, as produced by Python's `json` module (numbers restricted to
integers, which is all the embedded code paths construct or inspect). -/
inductive JValue where
  | null : JValue
  | bool (b : Bool) : JValue
  | num (n : ℤ) : JValue
  | str (s : String) : JValue
  | arr (xs : List JValue) : JValue
  | obj (fields : List (String × JValue)) : JValue

/-! ## Hex encoding (`binascii.hexlify` / `binascii.unhexlify`)

`hexlify` produces lowercase hex, two digits per byte; `unhexlify` accepts
both cases and fails (`binascii.Error`) on odd length or non-hex digits. -/

/-- The lowercase hex digit for a value below 16, as Python's `hexlify`
emits: `'0'..'9'` then `'a'..'f'`. -/
def hexDigitChar (n : Fin 16) : Char :=
  if n.val < 10 then Char.ofNat (48 + n.val) else Char.ofNat (87 + n.val)

/-- Decode one hex digit; accepts `0-9`, `a-f` and `A-F` like
`binascii.unhexlify`. -/
def hexCharVal (c : Char) : Option (Fin 16) :=
  let n := c.toNat
  if h : 48 ≤ n ∧ n ≤ 57 then some ⟨n - 48, by omega⟩
  else if h : 97 ≤ n ∧ n ≤ 102 then some ⟨n - 87, by omega⟩
  else if h : 65 ≤ n ∧ n ≤ 70 then some ⟨n - 55, by omega⟩
  else none

/-- Two lowercase hex digits of one byte, high nibble first. -/
def byteToHex (b : Fin 256) : List Char :=
  [hexDigitChar ⟨b.val / 16, by omega⟩, hexDigitChar ⟨b.val % 16, by omega⟩]

/-- `binascii.hexlify(bs).decode()`: the lowercase hex string of a byte
sequence. -/
def hexlify (bs : List (Fin 256)) : String :=
  ⟨(bs.map byteToHex).flatten⟩

/-- Character-list worker for `unhexlify`: consumes digits in pairs, fails on
an odd-length tail or a non-hex character. -/
def unhexlifyChars : List Char → Option (List (Fin 256))
  | [] => some []
  | [_] => none
  | c1 :: c2 :: rest => do
    let hi ← hexCharVal c1
    let lo ← hexCharVal c2
    let bs ← unhexlifyChars rest
    pure (⟨hi.val * 16 + lo.val, by omega⟩ :: bs)

/-- `binascii.unhexlify(s)`: decode a hex string back to bytes, `none` on
`binascii.Error`. -/
def unhexlify (s : String) : Option (List (Fin 256)) :=
  unhexlifyChars s.data

/-! ## Unit converter (`nimiqrpc/util.py`) -/

/-- `SATOSHI_PER_COIN = 100000`. -/
def SATOSHI_PER_COIN : ℕ := 100000

/-- Python's `int(...)` applied to an exact decimal: truncation toward zero
(floor for non-negative values, ceiling for negative ones). -/
def truncToInt (q : ℚ) : ℤ :=
  if 0 ≤ q then ⌊q⌋ else -⌊-q⌋

/-- `satoshi_to_coin(satoshi)`: exact division by `SATOSHI_PER_COIN`,
returning a `Decimal` (modelled exactly as `ℚ`). -/
def satoshi_to_coin (satoshi : ℤ) : ℚ :=
  (satoshi : ℚ) / (SATOSHI_PER_COIN : ℚ)

/-- `coin_to_satoshi(coin)`: multiply by `SATOSHI_PER_COIN` and truncate to
`int`. -/
def coin_to_satoshi (coin : ℚ) : ℤ :=
  truncToInt (coin * (SATOSHI_PER_COIN : ℚ))

/-- Python exceptions raised by the embedded code paths. -/
inductive PyExn where
  | valueError (msg : String) : PyExn
  | attributeError (msg : String) : PyExn
  | binasciiError : PyExn
deriving DecidableEq

/-- A runtime amount argument as the Python code sees it: an `int`
(subunits), a `Decimal` (coins), or a value of any other type (the
`type(value) == ...` checks in `ensure_satoshi` look at the runtime type). -/
inductive Amount where
  | int (n : ℤ) : Amount
  | dec (d : ℚ) : Amount
  | other (repr : String) : Amount

/-- `ensure_satoshi(value)`: `coin_to_satoshi` on a `Decimal`, identity on an
`int`, `ValueError` otherwise.  The `Decimal` branch is tested first, as in
the source. -/
def ensure_satoshi : Amount → Except PyExn ℤ
  | .dec d => .ok (coin_to_satoshi d)
  | .int n => .ok n
  | .other _ => .error (.valueError "Expected value to be either int or Decimal")

/-! ## JSON-RPC transport (`nimiqrpc/jsonrpc.py`)

`JsonRpcClient.call` allocates the next correlation id from `count(1)`,
builds the request envelope, POSTs it, checks the HTTP status, parses the
body, and classifies the outcome.  The model takes the parsed response
envelope as an argument (so it covers executions where the HTTP round trip
succeeded and the body parsed) and returns the outcome, the updated client
state, and the request envelope that was sent. -/

/-- The request envelope
`{"jsonrpc": "2.0", "method": method, "params": args, "id": call_id}`. -/
structure RpcRequest where
  jsonrpc : String
  method : String
  params : List JValue
  id : ℕ

/-- The parsed response envelope, with fields read through `dict.get`:
`none` stands for an absent key or a JSON `null` value (Python's `.get`
returns `None` in both cases). -/
structure RpcResponse where
  respId : Option JValue
  result : Option JValue
  error : Option JValue

/-- The exceptions `call` raises after a successful HTTP round trip:
`JsonRpcError` on a correlation-id mismatch (the spec's `ProtocolError`) and
`JsonRpcRemoteException` on a non-null `error` field (the spec's
`RemoteError`), which stores the request and the response (and hence the
error object) on the exception. -/
inductive CallError where
  | protocolError (expected : ℕ) (received : Option JValue) : CallError
  | remoteError (request : RpcRequest) (response : RpcResponse) : CallError

/-- Client state: endpoint URL, optional credentials, and the correlation-id
counter `self.call_ids = count(1)`, represented by the next id it will
yield. -/
structure JsonRpcClient where
  url : String
  credentials : Option (String × String)
  call_ids : ℕ

/-- `JsonRpcClient(url, credentials)`: a fresh client whose counter will
yield 1 first. -/
def JsonRpcClient.new (url : String) (credentials : Option (String × String)) :
    JsonRpcClient :=
  { url := url, credentials := credentials, call_ids := 1 }

/-- Python's `rpc_resp.get("id") != call_id` with the inequality dropped:
a JSON integer equal to the id matches, as does a JSON boolean (Python's
`bool` is an `int` subtype, so `True == 1`); every other value — including
an absent or null id — compares unequal to an `int`. -/
def idMatches (respId : Option JValue) (callId : ℕ) : Bool :=
  match respId with
  | some (.num m) => m == (callId : ℤ)
  | some (.bool b) => (if b then (1 : ℤ) else 0) == (callId : ℤ)
  | _ => false

/-- `JsonRpcClient.call(method, *args)` given the parsed response envelope
`resp`.  Returns `(outcome, updated client, request sent)`.  The counter is
advanced by `next(self.call_ids)` before the POST, so it is advanced on
every outcome. -/
def JsonRpcClient.call (c : JsonRpcClient) (method : String) (args : List JValue)
    (resp : RpcResponse) :
    Except CallError (Option JValue) × JsonRpcClient × RpcRequest :=
  let call_id := c.call_ids
  let rpc_req : RpcRequest :=
    { jsonrpc := "2.0", method := method, params := args, id := call_id }
  let c' : JsonRpcClient := { c with call_ids := c.call_ids + 1 }
  let outcome : Except CallError (Option JValue) :=
    if idMatches resp.respId call_id then
      match resp.error with
      | some _ => .error (.remoteError rpc_req resp)
      | none => .ok resp.result
    else
      .error (.protocolError call_id resp.respId)
  (outcome, c', rpc_req)

/-- The correlation ids a client assigns across a list of sequential calls
(each list entry supplies one call's method, arguments, and scripted
response).  Ids are recorded from the request envelopes actually sent,
whatever each call's outcome. -/
def run_calls (c : JsonRpcClient) :
    List (String × List JValue × RpcResponse) → List ℕ
  | [] => []
  | (m, a, r) :: rest =>
    let step := c.call m a r
    step.2.2.id :: run_calls step.2.1 rest

/-! ## Domain client (`nimiqrpc/api.py`, `nimiqrpc/albatross.py`)

Each operation below is modelled as the list of RPC calls it issues (in
order) paired with its outcome, so that "no network call attempted" is a
statement about the recorded list.  Exceptions raised while the argument
list of `self._rpc.call(...)` is being evaluated abort before that RPC call
is recorded, matching Python's evaluation order. -/

/-- One RPC call as issued through the transport: method name and positional
parameters. -/
structure RpcCall where
  method : String
  params : List JValue

/-- `NimiqApi.send_transaction(from_addr, to_addr, value, fee, to_type,
flags, data)`: normalizes `value` and `fee` with `ensure_satoshi` and hex
encodes `data` while building the parameter dict, then issues the single
`sendTransaction` RPC call.  A `ValueError` from normalization aborts before
the call is issued. -/
def send_transaction (from_addr to_addr : String) (value fee : Amount)
    (to_type flags : ℤ) (data : Option (List (Fin 256))) :
    List RpcCall × Except PyExn Unit :=
  match ensure_satoshi value with
  | .error e => ([], .error e)
  | .ok v =>
    match ensure_satoshi fee with
    | .error e => ([], .error e)
    | .ok f =>
      ([{ method := "sendTransaction",
          params := [JValue.obj [
            ("from", .str from_addr),
            ("to", .str to_addr),
            ("value", .num v),
            ("fee", .num f),
            ("flags", .num flags),
            ("data", match data with
              | none => .null
              | some d => .str (hexlify d)),
            ("toType", .num to_type)]] }],
       .ok ())

/-- `AlbatrossApi.stake(reward_address, staker_address, value)`: first calls
`self.validator_key()`, which issues the `validatorKey` RPC call (its hex
`validatorKey` / `proofOfKnowledge` response fields, already unhexlified,
are the `vk` / `pok` arguments here); then evaluates the argument list of
the `stake` RPC call, where `ensure_satoshi(value)` may raise `ValueError`
before that second call is issued. -/
def stake (vk pok : List (Fin 256)) (reward_address staker_address : String)
    (value : Amount) : List RpcCall × Except PyExn Unit :=
  let validator_key_call : RpcCall := { method := "validatorKey", params := [] }
  match ensure_satoshi value with
  | .error e => ([validator_key_call], .error e)
  | .ok v =>
    ([validator_key_call,
      { method := "stake",
        params := [.str (hexlify vk), .str (hexlify pok), .str staker_address,
                   .num v, .str reward_address] }],
     .ok ())

/-- The transaction object of a `getTransactionByHash` result, split into
its optional `data` field (a hex string; `none` stands for an absent or
JSON-null field, both of which `tx.get("data")` reads as `None`) and the
remaining fields. -/
structure TxResponse where
  data : Option String
  rest : List (String × JValue)

/-- The dict `get_transaction_by_hash` hands back to the caller: `data`
replaced by raw bytes when it was present. -/
structure TxDecoded where
  data : Option (List (Fin 256))
  rest : List (String × JValue)

/-- `NimiqApi.get_transaction_by_hash(hash)` applied to the RPC result: for
a null result (`tx = None`), `tx.get("data")` raises `AttributeError`; for a
transaction object, a present non-null `data` field is unhexlified in place
(raising `binascii.Error` on invalid hex) and a missing or null one is left
untouched. -/
def get_transaction_by_hash (result : Option TxResponse) :
    Except PyExn TxDecoded :=
  match result with
  | none => .error (.attributeError "NoneType object has no attribute get")
  | some tx =>
    match tx.data with
    | none => .ok { data := none, rest := tx.rest }
    | some s =>
      match unhexlify s with
      | none => .error .binasciiError
      | some bs => .ok { data := some bs, rest := tx.rest }

/-! ## Block listener (`nimiqrpc/util.py`, `block_listener`)

The generator loop is driven by a script of responses from
`nimiq.get_block_by_number(height)`: each iteration requests the block at
the current height and consumes one scripted response.  A `none` result
sleeps one fixed time unit and retries the same height; a block is yielded
and the height advances by one; an exception propagates and ends the
generator.  The run returns the observable event trace together with the
height the next request would use (the script length bounds how far the
infinite loop is observed). -/

/-- Observable events of one `block_listener` run. -/
inductive PollEvent where
  | request (height : ℤ) : PollEvent
  | sleep : PollEvent
  | yielded (b : JValue) : PollEvent
  | failure (e : PyExn) : PollEvent

/-- Run `block_listener`'s loop from a starting height against a script of
responses. -/
def block_listener_run (height : ℤ) :
    List (Except PyExn (Option JValue)) → List PollEvent × ℤ
  | [] => ([], height)
  | r :: rest =>
    match r with
    | .error e => ([.request height, .failure e], height)
    | .ok none =>
      let next := block_listener_run height rest
      (.request height :: .sleep :: next.1, next.2)
    | .ok (some b) =>
      let next := block_listener_run (height + 1) rest
      (.request height :: .yielded b :: next.1, next.2)

/-! ## Helper lemmas -/

/-- Decoding inverts each digit `hexDigitChar` produces. -/
theorem hexCharVal_hexDigitChar : ∀ d : Fin 16, hexCharVal (hexDigitChar d) = some d := by
  decide

/-- `unhexlify` inverts `hexlify` on every byte sequence (character-list
form). -/
theorem unhexlifyChars_hexlify (bs : List (Fin 256)) :
    unhexlifyChars ((bs.map byteToHex).flatten) = some bs := by
  induction bs with
  | nil => rfl
  | cons b rest ih =>
    have hb : (⟨b.val / 16 * 16 + b.val % 16, by omega⟩ : Fin 256) = b := by
      apply Fin.ext
      show b.val / 16 * 16 + b.val % 16 = b.val
      omega
    show unhexlifyChars (byteToHex b ++ (rest.map byteToHex).flatten) = some (b :: rest)
    simp only [byteToHex, List.cons_append, List.nil_append, unhexlifyChars,
      hexCharVal_hexDigitChar, Option.bind_eq_bind, Option.some_bind, hb]
    simp [ih]

/-- Truncation toward zero is the identity on integers. -/
theorem truncToInt_intCast (z : ℤ) : truncToInt (z : ℚ) = z := by
  unfold truncToInt
  split
  · exact Int.floor_intCast z
  · rw [← Int.cast_neg, Int.floor_intCast]
    omega

/-- Truncation toward zero agrees with the floor on non-negative values. -/
theorem truncToInt_of_nonneg (q : ℚ) (h : 0 ≤ q) : truncToInt q = ⌊q⌋ := by
  unfold truncToInt
  exact if_pos h

/-- Ids issued from any client state form the consecutive run starting at
its counter. -/
theorem run_calls_eq_range' (l : List (String × List JValue × RpcResponse))
    (c : JsonRpcClient) : run_calls c l = List.range' c.call_ids l.length := by
  induction l generalizing c with
  | nil => rfl
  | cons hd tl ih =>
    obtain ⟨m, a, r⟩ := hd
    simp only [run_calls, JsonRpcClient.call, ih, List.length_cons, List.range'_succ]

/-! ## Claim theorems -/

/-- C4: for every non-negative integer `n` of subunits, converting to a
decimal coin amount and back is the identity:
`coin_to_satoshi (satoshi_to_coin n) = n`, with no rounding anywhere. -/
theorem C4_subunit_roundtrip (n : ℕ) :
    coin_to_satoshi (satoshi_to_coin (n : ℤ)) = (n : ℤ) := by
  unfold satoshi_to_coin coin_to_satoshi
  rw [div_mul_cancel₀ _ (by norm_num [SATOSHI_PER_COIN] : ((SATOSHI_PER_COIN : ℚ)) ≠ 0)]
  exact truncToInt_intCast (n : ℤ)

/-- C6: `ensure_satoshi` (the spec's `normalize_amount`) is the identity on
every integer amount. -/
theorem C6_integer_identity (n : ℤ) : ensure_satoshi (.int n) = .ok n := rfl

/-- C5: a non-negative decimal with at most 5 fractional digits (`m / 10^k`,
`k ≤ 5`) normalizes to exactly the amount times 100,000, namely
`m * 10^(5-k)` subunits; a non-negative decimal with more fractional digits
truncates toward zero (floor, since the amount is non-negative); in
particular 1.234567 coins normalize to 123456 subunits. -/
theorem C5_decimal_normalization :
    (∀ m k : ℕ, k ≤ 5 →
      ensure_satoshi (.dec ((m : ℚ) / 10 ^ k)) = .ok ((m : ℤ) * 10 ^ (5 - k))) ∧
    (∀ d : ℚ, 0 ≤ d → ensure_satoshi (.dec d) = .ok ⌊d * 100000⌋) ∧
    ensure_satoshi (.dec ((1234567 : ℚ) / 10 ^ 6)) = .ok 123456 := by
  have floor_form : ∀ d : ℚ, 0 ≤ d → ensure_satoshi (.dec d) = .ok ⌊d * 100000⌋ := by
    intro d hd
    show (Except.ok (coin_to_satoshi d) : Except PyExn ℤ) = _
    unfold coin_to_satoshi
    rw [truncToInt_of_nonneg _ (by positivity)]
    norm_num [SATOSHI_PER_COIN]
  refine ⟨?_, floor_form, ?_⟩
  · intro m k hk
    rw [floor_form _ (by positivity)]
    congr 1
    have hcast : ((m : ℚ) / 10 ^ k) * 100000 = (((m : ℤ) * 10 ^ (5 - k) : ℤ) : ℚ) := by
      have hpow : (10 : ℚ) ^ 5 = 10 ^ k * 10 ^ (5 - k) := by
        rw [← pow_add]
        congr 1
        omega
      have hne : ((10 : ℚ)) ^ k ≠ 0 := by positivity
      push_cast
      rw [div_mul_eq_mul_div, show (100000 : ℚ) = 10 ^ 5 by norm_num, hpow]
      field_simp
      ring
    rw [hcast, Int.floor_intCast]
  · rw [floor_form _ (by positivity)]
    congr 1
    rw [show ((1234567 : ℚ) / 10 ^ 6) * 100000 = 1234567 / 10 by ring]
    rw [Int.floor_eq_iff]
    norm_num

/-- Witness for C5 at concrete inputs: 0.025 coins are exactly 2,500
subunits, and 1.5 coins floor to 150,000 subunits. -/
theorem C5_decimal_normalization_witness :
    ensure_satoshi (.dec ((25 : ℚ) / 10 ^ 3)) = .ok ((25 : ℤ) * 10 ^ (5 - 3)) ∧
    ensure_satoshi (.dec ((3 : ℚ) / 2)) = .ok ⌊(3 : ℚ) / 2 * 100000⌋ :=
  ⟨C5_decimal_normalization.1 25 3 (by norm_num),
   C5_decimal_normalization.2.1 (3 / 2) (by norm_num)⟩

/-- C2: when the response envelope's id does not equal the correlation id of
the request, `call` fails with the protocol error (`JsonRpcError`), and the
request still counts as sent: the single request envelope was built with
that id and the correlation-id counter has advanced and is not rolled back
(there is no retry path — `call` issues exactly one request by
construction). -/
theorem C2_id_mismatch (c : JsonRpcClient) (method : String) (args : List JValue)
    (resp : RpcResponse) (h : idMatches resp.respId c.call_ids = false) :
    c.call method args resp =
      (.error (.protocolError c.call_ids resp.respId),
       { c with call_ids := c.call_ids + 1 },
       { jsonrpc := "2.0", method := method, params := args, id := c.call_ids }) := by
  simp only [JsonRpcClient.call, h, Bool.false_eq_true, if_false]

/-- Witness for C2: a fresh client (next id 1) receiving an envelope whose
id is 999 fails with the protocol error and its counter moves to 2. -/
theorem C2_id_mismatch_witness :
    (JsonRpcClient.new "http://localhost:8648" none).call "blockNumber" []
        { respId := some (.num 999), result := some (.num 5), error := none } =
      (.error (.protocolError 1 (some (.num 999))),
       { url := "http://localhost:8648", credentials := none, call_ids := 2 },
       { jsonrpc := "2.0", method := "blockNumber", params := [], id := 1 }) :=
  C2_id_mismatch (JsonRpcClient.new "http://localhost:8648" none) "blockNumber" []
    { respId := some (.num 999), result := some (.num 5), error := none } rfl

/-- C3: when the envelope's id matches and its `error` field is non-null,
`call` fails with the remote error (`JsonRpcRemoteException`), which carries
the request — hence the method and the arguments — and the response, whose
`error` field is that exact error object. -/
theorem C3_remote_error (c : JsonRpcClient) (method : String) (args : List JValue)
    (resp : RpcResponse) (e : JValue)
    (hid : idMatches resp.respId c.call_ids = true)
    (herr : resp.error = some e) :
    (c.call method args resp).1 =
      .error (.remoteError
        { jsonrpc := "2.0", method := method, params := args, id := c.call_ids }
        resp) ∧
    resp.error = some e := by
  refine ⟨?_, herr⟩
  simp only [JsonRpcClient.call, hid, if_true, herr]

/-- Witness for C3: a client at id 7 receiving a matching envelope whose
error object is concrete fails with the remote error carrying it. -/
theorem C3_remote_error_witness :
    (({ url := "u", credentials := none, call_ids := 7 } : JsonRpcClient).call
        "getBalance" [.str "NQ53"]
        { respId := some (.num 7), result := none,
          error := some (.obj [("code", .num 1), ("message", .str "fail")]) }).1 =
      .error (.remoteError
        { jsonrpc := "2.0", method := "getBalance", params := [.str "NQ53"], id := 7 }
        { respId := some (.num 7), result := none,
          error := some (.obj [("code", .num 1), ("message", .str "fail")]) }) ∧
    ({ respId := some (.num 7), result := none,
       error := some (.obj [("code", .num 1), ("message", .str "fail")]) } :
        RpcResponse).error =
      some (.obj [("code", .num 1), ("message", .str "fail")]) :=
  C3_remote_error { url := "u", credentials := none, call_ids := 7 }
    "getBalance" [.str "NQ53"]
    { respId := some (.num 7), result := none,
      error := some (.obj [("code", .num 1), ("message", .str "fail")]) }
    (.obj [("code", .num 1), ("message", .str "fail")]) rfl rfl

/-- C9: across any sequence of N calls, a fresh client assigns exactly the
correlation ids 1, 2, ..., N (`List.range' 1 N`): starting at 1, one per
call, strictly increasing by one, with no gaps, repeats, or resets. -/
theorem C9_correlation_ids (url : String) (credentials : Option (String × String))
    (calls : List (String × List JValue × RpcResponse)) :
    run_calls (JsonRpcClient.new url credentials) calls =
      List.range' 1 calls.length := by
  rw [run_calls_eq_range']
  rfl

/-- C10: a null `getTransactionByHash` result is not returned to the caller:
`get_transaction_by_hash` fails with the `AttributeError` raised by reading
`.get("data")` on the absent transaction object. -/
theorem C10_null_result_attribute_error :
    get_transaction_by_hash none =
      .error (.attributeError "NoneType object has no attribute get") := rfl

/-- C7: transaction data bytes are sent as their lowercase hex encoding
(`[0xDE, 0xAD, 0xBE, 0xEF]` becomes `"deadbeef"` in the outgoing
`sendTransaction` payload, and in general the `data` field carries
`hexlify`); a present non-null response `data` field hex-decodes back to the
identical byte sequence; a null `data` field stays null in both directions,
never becoming empty bytes. -/
theorem C7_hex_data_roundtrip :
    hexlify [0xDE, 0xAD, 0xBE, 0xEF] = "deadbeef" ∧
    (∀ (from_addr to_addr : String) (v f to_type flags : ℤ) (bs : List (Fin 256)),
      send_transaction from_addr to_addr (.int v) (.int f) to_type flags (some bs) =
        ([{ method := "sendTransaction",
            params := [JValue.obj [
              ("from", .str from_addr), ("to", .str to_addr), ("value", .num v),
              ("fee", .num f), ("flags", .num flags),
              ("data", .str (hexlify bs)), ("toType", .num to_type)]] }],
         .ok ())) ∧
    (∀ (from_addr to_addr : String) (v f to_type flags : ℤ),
      send_transaction from_addr to_addr (.int v) (.int f) to_type flags none =
        ([{ method := "sendTransaction",
            params := [JValue.obj [
              ("from", .str from_addr), ("to", .str to_addr), ("value", .num v),
              ("fee", .num f), ("flags", .num flags),
              ("data", .null), ("toType", .num to_type)]] }],
         .ok ())) ∧
    (∀ bs : List (Fin 256), unhexlify (hexlify bs) = some bs) ∧
    (∀ (bs : List (Fin 256)) (rest : List (String × JValue)),
      get_transaction_by_hash (some { data := some (hexlify bs), rest := rest }) =
        .ok { data := some bs, rest := rest }) ∧
    (∀ rest : List (String × JValue),
      get_transaction_by_hash (some { data := none, rest := rest }) =
        .ok { data := none, rest := rest }) := by
  have hroundtrip : ∀ bs : List (Fin 256), unhexlify (hexlify bs) = some bs :=
    fun bs => unhexlifyChars_hexlify bs
  refine ⟨rfl, fun _ _ _ _ _ _ _ => rfl, fun _ _ _ _ _ _ => rfl, hroundtrip,
    ?_, fun _ => rfl⟩
  intro bs rest
  simp [get_transaction_by_hash, hroundtrip bs]

/-- C8: driven by the script `[null, null, block]` from height `H`, the
listener requests at `H`, sleeps, requests at `H` again, sleeps again, then
yields exactly that block at `H`, after which the next request height is
`H + 1`; a null response never advances the height; an error from the
underlying call propagates as the final event and ends the sequence; and
every continued run's next event is the request at its tracked height. -/
theorem C8_block_listener_scenario (H : ℤ) (b : JValue) (e : PyExn)
    (rest : List (Except PyExn (Option JValue))) :
    block_listener_run H [.ok none, .ok none, .ok (some b)] =
      ([.request H, .sleep, .request H, .sleep, .request H, .yielded b], H + 1) ∧
    (∀ (h : ℤ) (s : List (Except PyExn (Option JValue))),
      (block_listener_run h (.ok none :: s)).2 = (block_listener_run h s).2) ∧
    block_listener_run H (.error e :: rest) = ([.request H, .failure e], H) ∧
    (∀ (h : ℤ) (r : Except PyExn (Option JValue))
        (s : List (Except PyExn (Option JValue))),
      (block_listener_run h (r :: s)).1.head? = some (.request h)) := by
  refine ⟨rfl, fun _ _ => rfl, rfl, ?_⟩
  intro h r s
  cases r with
  | error e => rfl
  | ok v =>
    cases v with
    | none => rfl
    | some b => rfl

/-- C1 as stated is false on the code: given an amount of unsupported type,
the compound `stake` operation does issue an RPC call — `validator_key` runs
(and issues `validatorKey`) before `ensure_satoshi` is evaluated — so its
issued-call list at a concrete unsupported amount is not empty. -/
theorem C1_counterexample :
    ¬ (stake [] [] "NQ07 0000" "NQ53 GQLU" (.other "a string")).1 = [] := by
  simp [stake, ensure_satoshi]

/-- C1 amended: an unsupported amount type makes every amount-bearing
operation fail with `ValueError` before its amount-carrying RPC call is
issued: `send_transaction` issues no RPC call at all (for an unsupported
value or fee), while `stake` has already issued exactly the one
`validatorKey` RPC call of its validator-material fetch and fails before
issuing the `stake` RPC call itself. -/
theorem C1_amended (desc from_addr to_addr : String) (fee : Amount)
    (to_type flags : ℤ) (data : Option (List (Fin 256)))
    (vk pok : List (Fin 256)) (reward_address staker_address : String) (v : ℤ) :
    send_transaction from_addr to_addr (.other desc) fee to_type flags data =
      ([], .error (.valueError "Expected value to be either int or Decimal")) ∧
    send_transaction from_addr to_addr (.int v) (.other desc) to_type flags data =
      ([], .error (.valueError "Expected value to be either int or Decimal")) ∧
    stake vk pok reward_address staker_address (.other desc) =
      ([{ method := "validatorKey", params := [] }],
       .error (.valueError "Expected value to be either int or Decimal")) :=
  ⟨rfl, rfl, rfl⟩

end Nimiq
